import Mathlib

/-
Verification of the playback session manager ("Player") of LocalAudioBooks,
src/library/index.ts (class Player, lines 1103-1551).

Shallow embedding conventions:
* JavaScript numbers are modelled as rationals (ℚ).  The numeric literal 0.5
  from the source is written `mkRat 1 2`, the kernel-evaluable rational.
* The Howler engine handle (`this.howl`) is modelled by the `Engine` record
  holding the observable engine state the Player reads and writes through the
  narrow contract (seek get/set, rate get/set, playing, duration, volume,
  unload).  The engine event handlers installed by `loadBook` (onload, onplay,
  onpause, onend, onseek) call back into the Player synchronously; they are
  fused into the corresponding engine operations below, exactly as the jest
  mock of Howler in the test suite of the repository does.
* Asynchronous methods are modelled by explicit state passing; a call that can
  throw (or reject) returns `Option JsErr × World`, the first component being
  the thrown/rejected error (`none` on normal completion) and the second the
  state of the world when the call settles.  All guards in the source throw
  before mutating, and the translation preserves the exact statement order.
* `loadBook` suspends at its `await` points; it is split into the atomic
  segments between those points (`loadTeardown`, the two store reads,
  `loadInstall`, `loadSettle`), and executions are compositions of the
  segments.  `loadBookRun` is the uninterrupted composition.
-/

namespace LocalAudioBooks

/-- Errors observable from Player calls: `PlaybackError` (utils) thrown by the
Player itself, and `StorageError` thrown by the persistence layer
(src/storage/index.ts).  Both carry a human-readable message. -/
inductive JsErr where
  | playback (msg : String)
  | storage (msg : String)
  deriving Repr, DecidableEq

/-- State of one Howl engine instance as observed through the adapter
contract: position, per-sound volume, rate, playing flag and duration
(0 while the resource has not finished loading or when unknown). -/
structure Engine where
  pos : ℚ
  vol : ℚ
  rate : ℚ
  playing : Bool
  duration : ℚ
  deriving Repr, DecidableEq

/-- Book record (src/storage/index.ts).  The Player only reads `id` and stores
the whole record opaquely in `currentBook`; the remaining metadata fields
(author, cover, filePath, fileType, duration, chapters, addedAt) are opaque to
it and are omitted. -/
structure Book where
  id : String
  title : String
  deriving Repr, DecidableEq

/-- Settings record persisted by the store (src/storage/index.ts lines 44-47). -/
structure Settings where
  preferredSkipInterval : ℚ
  playbackSpeed : ℚ
  deriving Repr, DecidableEq

/-- DEFAULT_SETTINGS (src/storage/index.ts lines 56-59). -/
def DEFAULT_SETTINGS : Settings :=
  { preferredSkipInterval := 30, playbackSpeed := 1 }

/-- The external Progress/Settings store.  `progress` is the per-book saved
position table; `progressSaveFails` / `settingsSaveFails` model the
environment in which the next corresponding IndexedDB write rejects. -/
structure Store where
  progress : List (String × ℚ)
  settings : Settings
  progressSaveFails : Bool
  settingsSaveFails : Bool
  deriving Repr, DecidableEq

/-- Translation of storage `saveProgress` (src/storage/index.ts lines
227-254): rejects on a negative position, rejects on a failing write,
otherwise replaces the saved position for the book. -/
def saveProgressStore (bookId : String) (position : ℚ) (st : Store) :
    Except JsErr Store :=
  if position < 0 then
    .error (.storage "Позиция не может быть отрицательной")
  else if st.progressSaveFails then
    .error (.storage "Не удалось сохранить прогресс")
  else
    .ok { st with
      progress := (bookId, position) :: st.progress.filter (fun pr => pr.1 ≠ bookId) }

/-- Translation of storage `loadProgress` (lines 259-276): the saved position
for the book, or `none` when absent. -/
def loadProgressStore (bookId : String) (st : Store) : Option ℚ :=
  (st.progress.find? (fun pr => pr.1 = bookId)).map (fun pr => pr.2)

/-- Translation of storage `saveSettings` for the one call shape the Player
uses, a partial record carrying only `playbackSpeed` (lines 302-337): merges
it into the current settings; rejects when the write fails. -/
def saveSettingsSpeedStore (speed : ℚ) (st : Store) : Except JsErr Store :=
  if st.settingsSaveFails then
    .error (.storage "Ошибка при сохранении настроек")
  else
    .ok { st with settings := { st.settings with playbackSpeed := speed } }

/-- Fields of the Player singleton (lines 1104-1108): the engine handle, the
current book id and record, and the autosave interval handle.  The subscriber
set is modelled separately (see `notifyStateChange`), since the Player never
reads it except to deliver notifications. -/
structure PlayerSt where
  howl : Option Engine
  currentBookId : Option String
  currentBook : Option Book
  autoSaveInterval : Option Nat
  deriving Repr, DecidableEq

/-- The whole mutable world a Player call can touch: the Player fields, the
store, the global Howler master volume (`Howler.volume`, which lives outside
any session) and a counter supplying fresh `setInterval` handles. -/
structure World where
  player : PlayerSt
  store : Store
  howlerVolume : ℚ
  nextTimer : Nat
  deriving Repr, DecidableEq

/-- Shape of the state snapshot delivered to observers (lines 1090-1097). -/
structure PlayerState where
  isPlaying : Bool
  currentPosition : ℚ
  duration : ℚ
  volume : ℚ
  speed : ℚ
  currentBookId : Option String
  deriving Repr, DecidableEq

/-- Message of the no-session `PlaybackError` thrown by every transport
method when `this.howl` is null. -/
def noSessionErr : JsErr := .playback "Книга не загружена"

/-- Applies an engine mutation to the installed handle, if any. -/
def updateHowl (w : World) (f : Engine → Engine) : World :=
  { w with player := { w.player with howl := w.player.howl.map f } }

/-- JavaScript `a || b` on numbers: `b` when `a` is falsy (zero), else `a`. -/
def jsOr (a b : ℚ) : ℚ := if a = 0 then b else a

/-- Translation of `getCurrentPosition` (lines 1356-1363): 0 without an
engine, else the engine position. -/
def getCurrentPosition (w : World) : ℚ :=
  match w.player.howl with
  | none => 0
  | some h => h.pos

/-- Translation of `getDuration` (lines 1369-1376): 0 without an engine, else
`duration() || 0`. -/
def getDuration (w : World) : ℚ :=
  match w.player.howl with
  | none => 0
  | some h => jsOr h.duration 0

/-- Translation of `getState` (lines 1381-1396): the snapshot recomputed on
demand; `volume` always reads the Howler master volume. -/
def getState (w : World) : PlayerState :=
  { isPlaying := match w.player.howl with | some h => h.playing | none => false
    currentPosition := getCurrentPosition w
    duration := getDuration w
    volume := w.howlerVolume
    speed := match w.player.howl with | some h => jsOr h.rate 1 | none => 1
    currentBookId := w.player.currentBookId }

/-- Translation of `getCurrentBook` (lines 1401-1403). -/
def getCurrentBook (w : World) : Option Book := w.player.currentBook

/-- Translation of `saveCurrentPosition` (lines 1434-1445): returns silently
without a current book id or engine; otherwise attempts the progress write and
catches (logs) any storage error, leaving the world as it was. -/
def saveCurrentPosition (w : World) : World :=
  match w.player.currentBookId, w.player.howl with
  | some bid, some _ =>
    match saveProgressStore bid (getCurrentPosition w) w.store with
    | .ok st => { w with store := st }
    | .error _ => w
  | _, _ => w

/-- Translation of `stopAutoSave` (lines 1461-1466). -/
def stopAutoSave (p : PlayerSt) : PlayerSt := { p with autoSaveInterval := none }

/-- Translation of `startAutoSave` (lines 1450-1456): clears any previous
interval and installs a fresh handle. -/
def startAutoSave (w : World) : World :=
  let p := stopAutoSave w.player
  { w with
    player := { p with autoSaveInterval := some w.nextTimer }
    nextTimer := w.nextTimer + 1 }

/-- Engine `play()` together with the `onplay` handler installed by
`loadBook` (lines 1161-1164): the engine starts playing, autosave starts. -/
def howlPlay (w : World) : World :=
  startAutoSave (updateHowl w (fun h => { h with playing := true }))

/-- Engine `pause()` together with the `onpause` handler (lines 1165-1169):
the engine pauses, the position is persisted best-effort, autosave stops. -/
def howlPause (w : World) : World :=
  let w1 := saveCurrentPosition (updateHowl w (fun h => { h with playing := false }))
  { w1 with player := stopAutoSave w1.player }

/-- The engine `end` event together with the `onend` handler (lines
1170-1174): playback stops at track end, the position is persisted
best-effort, autosave stops. -/
def howlEnd (w : World) : World :=
  let w1 := saveCurrentPosition (updateHowl w (fun h => { h with playing := false }))
  { w1 with player := stopAutoSave w1.player }

/-- Translation of `play` (lines 1223-1229). -/
def play (w : World) : Option JsErr × World :=
  match w.player.howl with
  | none => (some noSessionErr, w)
  | some _ => (none, howlPlay w)

/-- Translation of `pause` (lines 1234-1240). -/
def pause (w : World) : Option JsErr × World :=
  match w.player.howl with
  | none => (some noSessionErr, w)
  | some _ => (none, howlPause w)

/-- Translation of `togglePlayPause` (lines 1245-1255): inspects the engine
playing flag and forwards to the engine pause or play accordingly. -/
def togglePlayPause (w : World) : Option JsErr × World :=
  match w.player.howl with
  | none => (some noSessionErr, w)
  | some h => if h.playing then (none, howlPause w) else (none, howlPlay w)

/-- Translation of `seek` (lines 1261-1277): clamps below at 0 always, clamps
above at the duration only when the duration is truthy (nonzero), sets the
engine position, then persists best-effort. -/
def seek (position : ℚ) (w : World) : Option JsErr × World :=
  match w.player.howl with
  | none => (some noSessionErr, w)
  | some h =>
    let p1 := if position < 0 then 0 else position
    let p2 := if h.duration ≠ 0 ∧ p1 > h.duration then h.duration else p1
    (none, saveCurrentPosition (updateHowl w (fun e => { e with pos := p2 })))

/-- Translation of `skipBackward` (lines 1283-1292); the source default for
`seconds` is 30. -/
def skipBackward (seconds : ℚ) (w : World) : Option JsErr × World :=
  match w.player.howl with
  | none => (some noSessionErr, w)
  | some h =>
    let newPos := max 0 (h.pos - seconds)
    (none, saveCurrentPosition (updateHowl w (fun e => { e with pos := newPos })))

/-- Translation of `skipForward` (lines 1298-1310); the source default for
`seconds` is 30.  When the duration is falsy (0/unknown) the body of the
`if (duration)` guard is skipped entirely: no seek, no persist. -/
def skipForward (seconds : ℚ) (w : World) : Option JsErr × World :=
  match w.player.howl with
  | none => (some noSessionErr, w)
  | some h =>
    if h.duration ≠ 0 then
      let newPos := min h.duration (h.pos + seconds)
      (none, saveCurrentPosition (updateHowl w (fun e => { e with pos := newPos })))
    else (none, w)

/-- Translation of `setSpeed` (lines 1316-1331): validates the range (the 0.5
bound is written `mkRat 1 2`), sets the engine rate, then awaits the settings
write with no surrounding catch, so a settings-store rejection propagates out
of the call (after the rate was already mutated) and the state broadcast is
skipped. -/
def setSpeed (speed : ℚ) (w : World) : Option JsErr × World :=
  match w.player.howl with
  | none => (some noSessionErr, w)
  | some _ =>
    if speed < mkRat 1 2 ∨ speed > 2 then
      (some (.playback "Скорость должна быть в диапазоне 0.5 - 2.0"), w)
    else
      let w1 := updateHowl w (fun e => { e with rate := speed })
      match saveSettingsSpeedStore speed w1.store with
      | .error e => (some e, w1)
      | .ok st => (none, { w1 with store := st })

/-- Translation of `setVolume` (lines 1337-1350): validates the range, then
sets the global Howler master volume. -/
def setVolume (volume : ℚ) (w : World) : Option JsErr × World :=
  match w.player.howl with
  | none => (some noSessionErr, w)
  | some _ =>
    if volume < 0 ∨ volume > 1 then
      (some (.playback "Громкость должна быть в диапазоне 0.0 - 1.0"), w)
    else (none, { w with howlerVolume := volume })

/-- Translation of `destroy` (lines 1471-1486): stops autosave, persists the
position best-effort, unloads and drops the engine, clears the book binding.
It never throws. -/
def destroy (w : World) : World :=
  let w1 := { w with player := stopAutoSave w.player }
  let w2 := saveCurrentPosition w1
  { w2 with player := { w2.player with
      howl := none, currentBookId := none, currentBook := none } }

/-
The `loadBook` segments (lines 1116-1218).  `loadBook` is the only suspending
operation; between its `await` points other calls on the single-threaded
event loop may run.  The body decomposes into:
  teardown   (lines 1119-1125, synchronous): unload the current engine, null
             the handle, stop autosave;
  reads      (`await fileHandle.getFile()`, `await loadSettings()`,
             `await loadProgress(book.id)`): three suspension points; the
             reads capture `settings` and `savedProgress` as locals of the
             invocation;
  install    (lines 1143-1184, synchronous): construct the new Howl with the
             saved rate, install it in `this.howl`, set
             `currentBookId`/`currentBook`;
  settle     (lines 1187-1208): await the one-shot engine ready/error signal.
             On ready, the config `onload` handler runs first (restore the
             saved position, reset volume, re-apply the rate), then the
             awaiting continuation restores the saved position again and the
             promise resolves.  On error the promise rejects with the
             playback-load error and the outer catch rethrows it unchanged,
             performing no cleanup.
Both the `onload` handler and the continuation read `this.howl` at the time
they run, not the engine their invocation created.
-/

/-- A fresh Howl instance as constructed at lines 1143-1181: initial volume
1.0, rate from the saved settings, paused, duration unknown until loaded. -/
def newHowl (initialRate : ℚ) : Engine :=
  { pos := 0, vol := 1, rate := initialRate, playing := false, duration := 0 }

/-- Teardown segment of `loadBook` (lines 1119-1125): unload and drop any
existing engine, stop autosave. -/
def loadTeardown (w : World) : World :=
  let w1 := { w with player := { w.player with howl := none } }
  { w1 with player := stopAutoSave w1.player }

/-- Install segment of `loadBook` (lines 1143-1184): install the freshly
constructed engine and bind the book. -/
def loadInstall (book : Book) (settings : Settings) (w : World) : World :=
  { w with player := { w.player with
      howl := some (newHowl settings.playbackSpeed)
      currentBookId := some book.id
      currentBook := some book } }

/-- How the engine settles a load attempt: ready with a reported duration, or
a load error with a message. -/
inductive LoadOutcome where
  | success (duration : ℚ)
  | failure (msg : String)
  deriving Repr, DecidableEq

/-- The guarded restore of the saved position, appearing twice in `loadBook`
(inside `onload`, lines 1150-1153, and after the await, lines 1203-1206):
seeks `this.howl` — whichever engine is installed at that moment — when a
strictly positive saved position exists and an engine is present. -/
def restoreSavedPosition (savedProgress : Option ℚ) (w : World) : World :=
  match savedProgress with
  | some sp =>
    if 0 < sp ∧ w.player.howl.isSome then
      updateHowl w (fun e => { e with pos := sp })
    else w
  | none => w

/-- The config `onload` handler (lines 1149-1160): restore the saved
position, then reset the per-sound volume to 1.0 and re-apply the saved rate
on `this.howl` if present. -/
def onloadHandler (settings : Settings) (savedProgress : Option ℚ) (w : World) :
    World :=
  let w1 := restoreSavedPosition savedProgress w
  if w1.player.howl.isSome then
    updateHowl w1 (fun e => { e with vol := 1, rate := settings.playbackSpeed })
  else w1

/-- Settle segment of `loadBook` (lines 1187-1208).  On success the engine
finishes loading (its duration becomes known), the `onload` handler runs,
then the awaiting continuation restores the saved position once more and the
promise resolves.  On failure the promise rejects with the playback-load
error, which the outer catch rethrows unchanged; no state is cleaned up. -/
def loadSettle (settings : Settings) (savedProgress : Option ℚ)
    (outcome : LoadOutcome) (w : World) : Option JsErr × World :=
  match outcome with
  | .failure msg => (some (.playback ("Ошибка загрузки: " ++ msg)), w)
  | .success d =>
    let w1 := updateHowl w (fun e => { e with duration := d })
    let w2 := onloadHandler settings savedProgress w1
    (none, restoreSavedPosition savedProgress w2)

/-- One whole `loadBook(book, ...)` invocation running uninterrupted, with
the engine settling as `outcome`: the composition of the segments in source
order, the store reads taken from the state after teardown. -/
def loadBookRun (book : Book) (outcome : LoadOutcome) (w : World) :
    Option JsErr × World :=
  let w1 := loadTeardown w
  let settings := w1.store.settings
  let savedProgress := loadProgressStore book.id w1.store
  let w2 := loadInstall book settings w1
  loadSettle settings savedProgress outcome w2

/-
Subscriber notification (lines 1408-1429).  A registered observer is an
opaque function of the snapshot that either returns or throws; the Player
stores the set and touches it only in `notifyStateChange`, so the callback
list is passed explicitly here.
-/

/-- An observer callback: receives a snapshot and returns, or throws with a
message. -/
def Callback : Type := PlayerState → Except String Unit

/-- One callback invocation under the try/catch of `notifyStateChange`
(lines 1423-1427): a thrown exception is caught and logged, recorded here as
the `some` result; it never escapes. -/
def invokeGuarded (cb : Callback) (st : PlayerState) : Option String :=
  match cb st with
  | .ok _ => none
  | .error msg => some msg

/-- The `forEach` loop of `notifyStateChange` over the registered callbacks,
each invocation guarded individually. -/
def deliverAll (cbs : List Callback) (st : PlayerState) : List (Option String) :=
  match cbs with
  | [] => []
  | cb :: rest => invokeGuarded cb st :: deliverAll rest st

/-- Translation of `notifyStateChange` (lines 1420-1429): computes the
snapshot once, then delivers it to every registered callback in order.  The
function is total: no callback exception propagates. -/
def notifyStateChange (cbs : List Callback) (w : World) : List (Option String) :=
  deliverAll cbs (getState w)

/-
Concrete worlds used by counterexamples and witnesses.
-/

/-- A Player in its initial (module-load) configuration over a given store
and master volume: no engine, no book, no timer. -/
def initWorld (st : Store) (vol : ℚ) : World :=
  { player := { howl := none, currentBookId := none, currentBook := none,
                autoSaveInterval := none }
    store := st
    howlerVolume := vol
    nextTimer := 0 }

/-- A store with no saved progress, default settings and reliable writes. -/
def store0 : Store :=
  { progress := [], settings := DEFAULT_SETTINGS,
    progressSaveFails := false, settingsSaveFails := false }

/-- The world right after module load: fresh Player, empty reliable store,
master volume 1. -/
def w0 : World := initWorld store0 1

def bookA : Book := { id := "book-a", title := "Book A" }

def bookB : Book := { id := "book-b", title := "Book B" }

/-- A Ready session: `loadBook bookA` ran uninterrupted and the engine
reported duration 3600. -/
def readyW : World := (loadBookRun bookA (.success 3600) w0).2

/-- The engine state installed in `readyW`. -/
def engineReady : Engine :=
  { pos := 0, vol := 1, rate := 1, playing := false, duration := 3600 }

/-- A Ready session whose engine reported duration 0 (unknown duration). -/
def readyDur0 : World := (loadBookRun bookA (.success 0) w0).2

/-- Interleaved execution in which a first `loadBook bookA` runs its
synchronous prologue and then suspends at its first await (such as
`fileHandle.getFile()`), while a second `loadBook bookB` runs all the way to
its successful settle.  `raceMidB` is the world at the instant the promise of
the second call resolves. -/
def raceMidB : World :=
  let wa1 := loadTeardown w0
  let wb1 := loadTeardown wa1
  let sb := wb1.store.settings
  let pb := loadProgressStore bookB.id wb1.store
  (loadSettle sb pb (.success 3600) (loadInstall bookB sb wb1)).2

/-- Continuation of the same interleaving: the pending awaits of the first
call now resolve, it runs its install segment over the state of the second
session, and its own engine settles. -/
def raceFinal : World :=
  let sa := raceMidB.store.settings
  let pa := loadProgressStore bookA.id raceMidB.store
  (loadSettle sa pa (.success 7200) (loadInstall bookA sa raceMidB)).2

/-- The mid-load world: a `loadBook bookA` call has run teardown, its store
reads and the install segment, and is now awaiting the engine settle — its
promise is still pending. -/
def midLoadW : World := loadInstall bookA DEFAULT_SETTINGS (loadTeardown w0)

/-- The Ready session over a store whose progress writes reject. -/
def failingProgressW : World :=
  { readyW with store := { readyW.store with progressSaveFails := true } }

/-- The Ready session over a store whose settings writes reject. -/
def failingSettingsW : World :=
  { readyW with store := { readyW.store with settingsSaveFails := true } }

/-- The Ready session after `seek 200`. -/
def readyAt200 : World := (seek 200 readyW).2

/-- The engine state installed in `readyAt200`. -/
def engineAt200 : Engine :=
  { pos := 200, vol := 1, rate := 1, playing := false, duration := 3600 }

/-- Playing sub-state test: true exactly when an engine is installed and
playing. -/
def isPlayingOf (w : World) : Bool :=
  match w.player.howl with
  | some h => h.playing
  | none => false

/-- The autosave invariant of the data model: the autosave timer is active
exactly when the session is in the Playing sub-state. -/
def AutosaveInv (w : World) : Prop :=
  w.player.autoSaveInterval.isSome = isPlayingOf w

/-- Atomic steps of the Player event loop: each synchronous public call, the
engine track-end event, and the `loadBook` segments.  A load prologue
(teardown through engine installation) appears fused in `opLoadPrologue`,
i.e. with no other call interleaved between a teardown and the installation
belonging to the same invocation; a settle (with the locals its invocation
captured, stale or not) may arrive at any time. -/
inductive Step : World → World → Prop where
  | opPlay (w : World) : Step w (play w).2
  | opPause (w : World) : Step w (pause w).2
  | opToggle (w : World) : Step w (togglePlayPause w).2
  | opSeek (x : ℚ) (w : World) : Step w (seek x w).2
  | opSkipBackward (s : ℚ) (w : World) : Step w (skipBackward s w).2
  | opSkipForward (s : ℚ) (w : World) : Step w (skipForward s w).2
  | opSetSpeed (s : ℚ) (w : World) : Step w (setSpeed s w).2
  | opSetVolume (v : ℚ) (w : World) : Step w (setVolume v w).2
  | opDestroy (w : World) : Step w (destroy w)
  | evTrackEnd (w : World) : Step w (howlEnd w)
  | midTeardown (w : World) : Step w (loadTeardown w)
  | opLoadPrologue (b : Book) (w : World) :
      Step w (loadInstall b (loadTeardown w).store.settings (loadTeardown w))
  | evLoadSettle (s : Settings) (p : Option ℚ) (o : LoadOutcome) (w : World) :
      Step w (loadSettle s p o w).2

/-- Worlds reachable from a fresh Player by `Step` sequences. -/
inductive Reach : World → Prop where
  | init (st : Store) (vol : ℚ) : Reach (initWorld st vol)
  | step {w w2 : World} : Reach w → Step w w2 → Reach w2

/-- State produced by overlapping `loadBook` calls around a `play()`: the
first call (for `bookA`) suspends before creating its engine, the second
(for `bookB`) completes, playback of `bookB` starts, and then the first call
resumes and runs its install segment. -/
def raceAutosaveState : World :=
  loadInstall bookA (play raceMidB).2.store.settings (play raceMidB).2

/-
Helper lemmas shared by the claim theorems.
-/

theorem half_eq : (mkRat 1 2 : ℚ) = 1/2 := by
  rw [Rat.mkRat_eq_div]; norm_num

theorem saveCurrentPosition_player (w : World) :
    (saveCurrentPosition w).player = w.player := by
  unfold saveCurrentPosition
  split
  · split <;> rfl
  · rfl

theorem howl_after_save_update (w : World) (e : Engine) (f : Engine → Engine)
    (he : w.player.howl = some e) :
    (saveCurrentPosition (updateHowl w f)).player.howl = some (f e) := by
  rw [saveCurrentPosition_player]
  simp [updateHowl, he]

theorem pos_after_save_update (w : World) (e : Engine) (f : Engine → Engine)
    (he : w.player.howl = some e) :
    getCurrentPosition (saveCurrentPosition (updateHowl w f)) = (f e).pos := by
  simp [getCurrentPosition, howl_after_save_update w e f he]

theorem saveCurrentPosition_howlerVolume (w : World) :
    (saveCurrentPosition w).howlerVolume = w.howlerVolume := by
  unfold saveCurrentPosition
  split
  · split <;> rfl
  · rfl

theorem destroy_howlerVolume (w : World) :
    (destroy w).howlerVolume = w.howlerVolume := by
  simp [destroy, saveCurrentPosition_howlerVolume]

theorem restore_howlerVolume (p : Option ℚ) (w : World) :
    (restoreSavedPosition p w).howlerVolume = w.howlerVolume := by
  unfold restoreSavedPosition
  split
  · split <;> rfl
  · rfl

theorem onload_howlerVolume (s : Settings) (p : Option ℚ) (w : World) :
    (onloadHandler s p w).howlerVolume = w.howlerVolume := by
  simp only [onloadHandler, updateHowl]
  split
  · rw [restore_howlerVolume]
  · rw [restore_howlerVolume]

theorem loadSettle_howlerVolume (s : Settings) (p : Option ℚ) (o : LoadOutcome)
    (w : World) :
    (loadSettle s p o w).2.howlerVolume = w.howlerVolume := by
  cases o with
  | failure m => rfl
  | success d =>
    simp [loadSettle, restore_howlerVolume, onload_howlerVolume, updateHowl]

theorem loadBookRun_howlerVolume (b : Book) (o : LoadOutcome) (w : World) :
    (loadBookRun b o w).2.howlerVolume = w.howlerVolume := by
  simp [loadBookRun, loadSettle_howlerVolume, loadInstall, loadTeardown,
    stopAutoSave]

theorem inv_updateHowl (w : World) (f : Engine → Engine)
    (hf : ∀ e, (f e).playing = e.playing) (hw : AutosaveInv w) :
    AutosaveInv (updateHowl w f) := by
  unfold AutosaveInv isPlayingOf at hw ⊢
  unfold updateHowl
  cases hh : w.player.howl with
  | none => simpa [hh] using hw
  | some e =>
    show w.player.autoSaveInterval.isSome = (f e).playing
    rw [hf e]
    simpa [hh] using hw

theorem inv_player_eq {w w2 : World} (h : w2.player = w.player)
    (hw : AutosaveInv w) : AutosaveInv w2 := by
  unfold AutosaveInv isPlayingOf at hw ⊢
  rw [h]
  exact hw

theorem inv_howlPlay (w : World) (e : Engine) (hh : w.player.howl = some e) :
    AutosaveInv (howlPlay w) := by
  simp [howlPlay, startAutoSave, stopAutoSave, updateHowl, AutosaveInv,
    isPlayingOf, hh]

theorem inv_howlPause (w : World) : AutosaveInv (howlPause w) := by
  unfold AutosaveInv isPlayingOf howlPause
  cases hh : w.player.howl with
  | none => simp [stopAutoSave, saveCurrentPosition_player, updateHowl, hh]
  | some e => simp [stopAutoSave, saveCurrentPosition_player, updateHowl, hh]

theorem inv_howlEnd (w : World) : AutosaveInv (howlEnd w) := by
  unfold AutosaveInv isPlayingOf howlEnd
  cases hh : w.player.howl with
  | none => simp [stopAutoSave, saveCurrentPosition_player, updateHowl, hh]
  | some e => simp [stopAutoSave, saveCurrentPosition_player, updateHowl, hh]

theorem inv_play (w : World) (hw : AutosaveInv w) : AutosaveInv (play w).2 := by
  cases hh : w.player.howl with
  | none => simpa [play, hh] using hw
  | some e =>
    have hred : (play w).2 = howlPlay w := by simp [play, hh]
    rw [hred]
    exact inv_howlPlay w e hh

theorem inv_pause (w : World) (hw : AutosaveInv w) : AutosaveInv (pause w).2 := by
  cases hh : w.player.howl with
  | none => simpa [pause, hh] using hw
  | some e =>
    have hred : (pause w).2 = howlPause w := by simp [pause, hh]
    rw [hred]
    exact inv_howlPause w

theorem inv_toggle (w : World) (hw : AutosaveInv w) :
    AutosaveInv (togglePlayPause w).2 := by
  cases hh : w.player.howl with
  | none => simpa [togglePlayPause, hh] using hw
  | some e =>
    by_cases hp : e.playing
    · have hred : (togglePlayPause w).2 = howlPause w := by
        simp [togglePlayPause, hh, hp]
      rw [hred]
      exact inv_howlPause w
    · have hred : (togglePlayPause w).2 = howlPlay w := by
        simp [togglePlayPause, hh, hp]
      rw [hred]
      exact inv_howlPlay w e hh

theorem inv_seek (x : ℚ) (w : World) (hw : AutosaveInv w) :
    AutosaveInv (seek x w).2 := by
  cases hh : w.player.howl with
  | none => simpa [seek, hh] using hw
  | some e =>
    have hred : (seek x w).2 = saveCurrentPosition (updateHowl w (fun en =>
        { en with pos := if e.duration ≠ 0 ∧ (if x < 0 then 0 else x) > e.duration
                        then e.duration else if x < 0 then 0 else x })) := by
      simp [seek, hh]
    rw [hred]
    exact inv_player_eq (saveCurrentPosition_player _)
      (inv_updateHowl w _ (fun _ => rfl) hw)

theorem inv_skipBackward (s : ℚ) (w : World) (hw : AutosaveInv w) :
    AutosaveInv (skipBackward s w).2 := by
  cases hh : w.player.howl with
  | none => simpa [skipBackward, hh] using hw
  | some e =>
    have hred : (skipBackward s w).2 = saveCurrentPosition (updateHowl w (fun en =>
        { en with pos := max 0 (e.pos - s) })) := by
      simp [skipBackward, hh]
    rw [hred]
    exact inv_player_eq (saveCurrentPosition_player _)
      (inv_updateHowl w _ (fun _ => rfl) hw)

theorem inv_skipForward (s : ℚ) (w : World) (hw : AutosaveInv w) :
    AutosaveInv (skipForward s w).2 := by
  cases hh : w.player.howl with
  | none => simpa [skipForward, hh] using hw
  | some e =>
    by_cases hd : e.duration ≠ 0
    · have hred : (skipForward s w).2 = saveCurrentPosition (updateHowl w (fun en =>
          { en with pos := min e.duration (e.pos + s) })) := by
        simp [skipForward, hh, hd]
      rw [hred]
      exact inv_player_eq (saveCurrentPosition_player _)
        (inv_updateHowl w _ (fun _ => rfl) hw)
    · have hred : (skipForward s w).2 = w := by simp [skipForward, hh, hd]
      rw [hred]
      exact hw

theorem inv_setSpeed (s : ℚ) (w : World) (hw : AutosaveInv w) :
    AutosaveInv (setSpeed s w).2 := by
  cases hh : w.player.howl with
  | none => simpa [setSpeed, hh] using hw
  | some e =>
    by_cases hc : s < mkRat 1 2 ∨ s > 2
    · have hred : (setSpeed s w).2 = w := by simp [setSpeed, hh, hc]
      rw [hred]; exact hw
    · have hup : AutosaveInv (updateHowl w (fun en => { en with rate := s })) :=
        inv_updateHowl w _ (fun _ => rfl) hw
      have hred : (setSpeed s w).2 =
          (match saveSettingsSpeedStore s
              (updateHowl w (fun en => { en with rate := s })).store with
           | .error _ => (updateHowl w (fun en => { en with rate := s }))
           | .ok st => { updateHowl w (fun en => { en with rate := s }) with
                         store := st }) := by
        simp only [setSpeed, hh]
        rw [if_neg hc]
        split <;> rfl
      rw [hred]
      split
      · exact hup
      · exact inv_player_eq rfl hup

theorem inv_setVolume (v : ℚ) (w : World) (hw : AutosaveInv w) :
    AutosaveInv (setVolume v w).2 := by
  cases hh : w.player.howl with
  | none => simpa [setVolume, hh] using hw
  | some e =>
    by_cases hc : v < 0 ∨ v > 1
    · have hred : (setVolume v w).2 = w := by simp [setVolume, hh, hc]
      rw [hred]; exact hw
    · have hred : (setVolume v w).2 = { w with howlerVolume := v } := by
        simp only [setVolume, hh]
        rw [if_neg hc]
      rw [hred]
      exact inv_player_eq rfl hw

theorem inv_destroy (w : World) : AutosaveInv (destroy w) := by
  unfold AutosaveInv isPlayingOf destroy
  simp [stopAutoSave, saveCurrentPosition_player]

theorem inv_loadTeardown (w : World) : AutosaveInv (loadTeardown w) := by
  unfold AutosaveInv isPlayingOf loadTeardown
  simp [stopAutoSave]

theorem inv_loadInstall (b : Book) (s : Settings) (w : World)
    (hs : w.player.autoSaveInterval = none) :
    AutosaveInv (loadInstall b s w) := by
  unfold AutosaveInv isPlayingOf loadInstall
  simp [hs, newHowl]

theorem inv_restore (p : Option ℚ) (w : World) (hw : AutosaveInv w) :
    AutosaveInv (restoreSavedPosition p w) := by
  unfold restoreSavedPosition
  split
  · split
    · exact inv_updateHowl w _ (fun _ => rfl) hw
    · exact hw
  · exact hw

theorem inv_onload (s : Settings) (p : Option ℚ) (w : World) (hw : AutosaveInv w) :
    AutosaveInv (onloadHandler s p w) := by
  simp only [onloadHandler]
  split
  · exact inv_updateHowl _ _ (fun _ => rfl) (inv_restore p w hw)
  · exact inv_restore p w hw

theorem inv_loadSettle (s : Settings) (p : Option ℚ) (o : LoadOutcome) (w : World)
    (hw : AutosaveInv w) : AutosaveInv (loadSettle s p o w).2 := by
  cases o with
  | failure m => exact hw
  | success d =>
    exact inv_restore p _ (inv_onload s p _ (inv_updateHowl w _ (fun _ => rfl) hw))

theorem inv_step : ∀ {w w2 : World}, Step w w2 → AutosaveInv w → AutosaveInv w2 := by
  intro w w2 hs
  cases hs with
  | opPlay => exact inv_play w
  | opPause => exact inv_pause w
  | opToggle => exact inv_toggle w
  | opSeek x => exact inv_seek x w
  | opSkipBackward s => exact inv_skipBackward s w
  | opSkipForward s => exact inv_skipForward s w
  | opSetSpeed s => exact inv_setSpeed s w
  | opSetVolume v => exact inv_setVolume v w
  | opDestroy => exact fun _ => inv_destroy w
  | evTrackEnd => exact fun _ => inv_howlEnd w
  | midTeardown => exact fun _ => inv_loadTeardown w
  | opLoadPrologue b =>
    exact fun _ => inv_loadInstall b _ _ (by simp [loadTeardown, stopAutoSave])
  | evLoadSettle s p o => exact inv_loadSettle s p o w

theorem reach_readyW : Reach readyW := by
  have h1 : Reach w0 := Reach.init store0 1
  have h2 := Reach.step h1 (Step.opLoadPrologue bookA w0)
  have h3 := Reach.step h2 (Step.evLoadSettle ((loadTeardown w0).store.settings)
    (loadProgressStore bookA.id (loadTeardown w0).store) (.success 3600)
    (loadInstall bookA ((loadTeardown w0).store.settings) (loadTeardown w0)))
  exact h3

/-
Claim theorems.
-/

/-- C1: the claimed generation guard does not exist in `Player` (the class
has no generation field), and the claimed behaviour fails.  In the
interleaving where the second `loadBook` resolves while the first is still
pending before creating its engine, the second book is current at that
instant, but the eventual completion of the first attempt then installs its
own engine and book over the second session — the stale attempt is not
discarded, and the engine of the second session is displaced without being
unloaded. -/
theorem loadBook_race_overwrites_second_session :
    raceMidB.player.currentBookId = some "book-b" ∧
    raceMidB.player.currentBook = some bookB ∧
    raceFinal.player.currentBookId = some "book-a" ∧
    raceFinal.player.currentBook = some bookA ∧
    raceFinal.player.howl =
      some { pos := 0, vol := 1, rate := 1, playing := false, duration := 7200 } := by
  decide

/-- C2: when the engine reports a load error, `loadBook` rejects with the
playback-load `PlaybackError`, but the Player does not revert to Unloaded:
the catch block rethrows without any cleanup, so `currentBookId` keeps the
book id, `getCurrentBook()` returns the book, and the half-initialized
engine instance remains installed instead of being released. -/
theorem loadBook_error_retains_partial_session :
    (loadBookRun bookA (.failure "load error") w0).1 =
      some (.playback "Ошибка загрузки: load error") ∧
    (loadBookRun bookA (.failure "load error") w0).2.player.currentBookId =
      some "book-a" ∧
    getCurrentBook (loadBookRun bookA (.failure "load error") w0).2 = some bookA ∧
    (loadBookRun bookA (.failure "load error") w0).2.player.howl =
      some (newHowl 1) := by
  decide

/-- C3 (counterexample): the no-session guard of every transport method
checks the nullness of `this.howl`, not readiness.  In the window after
`loadBook` has installed the still-loading engine and before its promise
resolves, `play()` does not throw: it returns normally and even starts the
autosave timer, mutating state. -/
theorem play_during_pending_load_does_not_throw :
    (play midLoadW).1 = none ∧
    (play midLoadW).2.player.autoSaveInterval = some 0 := by
  decide

/-- C3 (amended): whenever no engine instance is installed (`this.howl` is
null — before `loadBook` creates the engine, in the teardown window of a
`loadBook`, or after `destroy()`), every transport operation throws the
no-session `PlaybackError` and returns the world unchanged, while
`getCurrentPosition()` and `getDuration()` return 0 and never throw. -/
theorem transport_without_engine_throws_noSession (w : World)
    (hno : w.player.howl = none) (x s sp v : ℚ) :
    play w = (some noSessionErr, w) ∧
    pause w = (some noSessionErr, w) ∧
    togglePlayPause w = (some noSessionErr, w) ∧
    seek x w = (some noSessionErr, w) ∧
    skipBackward s w = (some noSessionErr, w) ∧
    skipForward s w = (some noSessionErr, w) ∧
    setSpeed sp w = (some noSessionErr, w) ∧
    setVolume v w = (some noSessionErr, w) ∧
    getCurrentPosition w = 0 ∧
    getDuration w = 0 := by
  refine ⟨?_, ?_, ?_, ?_, ?_, ?_, ?_, ?_, ?_, ?_⟩ <;>
    simp [play, pause, togglePlayPause, seek, skipBackward, skipForward,
      setSpeed, setVolume, getCurrentPosition, getDuration, hno]

/-- C3 (witness): the amended theorem applied to the world after
`destroy()`, which has no installed engine. -/
theorem transport_without_engine_throws_noSession_witness :
    (destroy readyW).player.howl = none ∧
    play (destroy readyW) = (some noSessionErr, destroy readyW) ∧
    getCurrentPosition (destroy readyW) = 0 := by
  refine ⟨by decide, ?_, ?_⟩
  · exact (transport_without_engine_throws_noSession (destroy readyW)
      (by decide) 1 1 1 1).1
  · exact (transport_without_engine_throws_noSession (destroy readyW)
      (by decide) 1 1 1 1).2.2.2.2.2.2.2.2.1

/-- C4 (counterexample): a Ready session whose engine reports duration 0
refutes the claim that `seek(x)` always clamps to `[0, duration]`.  The
upper clamp sits behind the truthiness guard `if (duration && ...)`, so with
duration 0 the claim requires position 0 but `seek 5` leaves position 5. -/
theorem seek_pastEnd_durationZero :
    getDuration readyDur0 = 0 ∧
    getCurrentPosition (seek 5 readyDur0).2 = 5 := by
  decide

/-- C4 (amended): for an active session, `seek x` succeeds and the resulting
engine position equals `clamp(x, 0, duration)` whenever the duration is
positive; when the duration is 0 only the lower clamp applies and the
resulting position is `max 0 x`. -/
theorem seek_clamps (w : World) (e : Engine) (x : ℚ) (he : w.player.howl = some e) :
    (seek x w).1 = none ∧
    (0 < e.duration →
      getCurrentPosition (seek x w).2 = max 0 (min x e.duration)) ∧
    (e.duration = 0 → getCurrentPosition (seek x w).2 = max 0 x) := by
  have hred : seek x w =
      (none, saveCurrentPosition (updateHowl w (fun en =>
        { en with pos := if e.duration ≠ 0 ∧ (if x < 0 then 0 else x) > e.duration
                        then e.duration else if x < 0 then 0 else x }))) := by
    simp [seek, he]
  rw [hred]
  refine ⟨rfl, ?_, ?_⟩
  · intro hd
    rw [pos_after_save_update w e _ he]
    rcases lt_or_le x 0 with hx | hx
    · simp only [if_pos hx]
      rw [if_neg (by push_neg; intro _; linarith)]
      rw [min_eq_left (le_of_lt (lt_trans hx hd)), max_eq_left (le_of_lt hx)]
    · simp only [if_neg (not_lt.mpr hx)]
      rcases lt_or_le e.duration x with hxd | hxd
      · rw [if_pos ⟨ne_of_gt hd, hxd⟩]
        rw [min_eq_right (le_of_lt hxd), max_eq_right (le_of_lt hd)]
      · rw [if_neg (by push_neg; intro _; exact hxd)]
        rw [min_eq_left hxd, max_eq_right hx]
  · intro hd
    rw [pos_after_save_update w e _ he]
    rw [hd]
    simp only [ne_eq, not_true_eq_false, false_and, if_false]
    rcases lt_or_le x 0 with hx | hx
    · rw [if_pos hx, max_eq_left (le_of_lt hx)]
    · rw [if_neg (not_lt.mpr hx), max_eq_right hx]

/-- C4 (witness): seeking past the end of the Ready session with duration
3600 clamps to 3600. -/
theorem seek_clamps_witness :
    readyW.player.howl = some engineReady ∧
    getCurrentPosition (seek 4000 readyW).2 = max 0 (min 4000 engineReady.duration) :=
  ⟨by decide, (seek_clamps readyW engineReady 4000 (by decide)).2.1 (by decide)⟩

/-- C5 (counterexample): `setSpeed` awaits the settings write with no
surrounding catch, so when the settings store rejects, the rejection
propagates out of `setSpeed` — a persistence failure does fail this
transport call, refuting the claim for `setSpeed`. -/
theorem setSpeed_propagates_settings_save_failure :
    (setSpeed 1 failingSettingsW).1 =
      some (.storage "Ошибка при сохранении настроек") := by
  decide

/-- C5 (amended): the progress writes issued by `pause`, `seek`,
`skipBackward` and `skipForward` go through `saveCurrentPosition`, whose
internal try/catch swallows any storage failure, so those four calls
complete normally over every store, including one whose progress writes
reject; `setSpeed` is the exception, since it awaits the settings write
uncaught (see the counterexample). -/
theorem progress_save_failure_not_propagated (w : World) (e : Engine) (x s : ℚ)
    (he : w.player.howl = some e) :
    (pause w).1 = none ∧ (seek x w).1 = none ∧
    (skipBackward s w).1 = none ∧ (skipForward s w).1 = none := by
  refine ⟨?_, ?_, ?_, ?_⟩
  · simp [pause, he]
  · simp [seek, he]
  · simp [skipBackward, he]
  · simp only [skipForward, he]
    split <;> rfl

/-- C5 (witness): the amended theorem applied to the Ready session whose
progress writes reject. -/
theorem progress_save_failure_witness :
    failingProgressW.player.howl = some engineReady ∧
    (pause failingProgressW).1 = none ∧
    (seek 100 failingProgressW).1 = none ∧
    (skipBackward 30 failingProgressW).1 = none ∧
    (skipForward 30 failingProgressW).1 = none := by
  refine ⟨by decide, ?_, ?_, ?_, ?_⟩
  · exact (progress_save_failure_not_propagated failingProgressW engineReady
      100 30 (by decide)).1
  · exact (progress_save_failure_not_propagated failingProgressW engineReady
      100 30 (by decide)).2.1
  · exact (progress_save_failure_not_propagated failingProgressW engineReady
      100 30 (by decide)).2.2.1
  · exact (progress_save_failure_not_propagated failingProgressW engineReady
      100 30 (by decide)).2.2.2

/-- C6: on an active session over a store whose settings writes succeed,
`setSpeed speed` for `speed` in `[0.5, 2.0]` succeeds, sets the engine rate
so that `getState().speed = speed`, and persists the speed to the settings
store; outside the range it rejects with the invalid-parameter
`PlaybackError` and changes nothing. -/
theorem setSpeed_range (w : World) (e : Engine) (speed : ℚ)
    (he : w.player.howl = some e) (hstore : w.store.settingsSaveFails = false) :
    ((1/2 ≤ speed ∧ speed ≤ 2) →
      (setSpeed speed w).1 = none ∧
      (getState (setSpeed speed w).2).speed = speed ∧
      (setSpeed speed w).2.store.settings.playbackSpeed = speed) ∧
    ((speed < 1/2 ∨ 2 < speed) →
      setSpeed speed w =
        (some (.playback "Скорость должна быть в диапазоне 0.5 - 2.0"), w)) := by
  constructor
  · rintro ⟨h1, h2⟩
    have hcond : ¬ (speed < mkRat 1 2 ∨ speed > 2) := by
      push_neg
      rw [half_eq]
      constructor <;> linarith
    have hred : setSpeed speed w =
        (none, { w with
          player := { w.player with howl := some { e with rate := speed } }
          store := { w.store with settings :=
            { w.store.settings with playbackSpeed := speed } } }) := by
      simp [setSpeed, he, hcond, saveSettingsSpeedStore, hstore, updateHowl]
    rw [hred]
    refine ⟨rfl, ?_, rfl⟩
    simp [getState, jsOr]
    intro h0
    rw [h0] at h1
    norm_num at h1
  · intro h
    have hcond : speed < mkRat 1 2 ∨ speed > 2 := by
      rcases h with h | h
      · left; rw [half_eq]; exact h
      · right; exact h
    simp only [setSpeed, he]
    rw [if_pos hcond]

/-- C6 (witness): the range theorem applied to the Ready session at the
in-range speed 2 and the out-of-range speed 3. -/
theorem setSpeed_range_witness :
    ((setSpeed 2 readyW).1 = none ∧
     (getState (setSpeed 2 readyW).2).speed = 2 ∧
     (setSpeed 2 readyW).2.store.settings.playbackSpeed = 2) ∧
    setSpeed 3 readyW =
      (some (.playback "Скорость должна быть в диапазоне 0.5 - 2.0"), readyW) :=
  ⟨(setSpeed_range readyW engineReady 2 (by decide) (by decide)).1 (by norm_num),
   (setSpeed_range readyW engineReady 3 (by decide) (by decide)).2 (by norm_num)⟩

/-- C7: for an active session at position `pos` with a positive skip amount,
`skipBackward` moves the position to `max 0 (pos - s)` regardless of the
duration, while `skipForward` moves it to `min duration (pos + s)` when the
duration is positive and is a complete no-op when the duration is 0. -/
theorem skip_clamps (w : World) (e : Engine) (s : ℚ) (he : w.player.howl = some e)
    (hs : 0 < s) :
    ((skipBackward s w).1 = none ∧
      getCurrentPosition (skipBackward s w).2 = max 0 (e.pos - s)) ∧
    (0 < e.duration →
      (skipForward s w).1 = none ∧
      getCurrentPosition (skipForward s w).2 = min e.duration (e.pos + s)) ∧
    (e.duration = 0 → skipForward s w = (none, w)) := by
  refine ⟨⟨?_, ?_⟩, ?_, ?_⟩
  · simp [skipBackward, he]
  · have hred : skipBackward s w = (none, saveCurrentPosition (updateHowl w
        (fun en => { en with pos := max 0 (e.pos - s) }))) := by
      simp [skipBackward, he]
    rw [hred, pos_after_save_update w e _ he]
  · intro hd
    have hred : skipForward s w = (none, saveCurrentPosition (updateHowl w
        (fun en => { en with pos := min e.duration (e.pos + s) }))) := by
      simp [skipForward, he, ne_of_gt hd]
    rw [hred]
    exact ⟨rfl, pos_after_save_update w e _ he⟩
  · intro hd
    simp [skipForward, he, hd]

/-- C7 (witness): the skip theorem applied at position 200 of the session
with duration 3600 (backward to 170, forward to 230), and to the session
with duration 0, where the forward skip is a no-op. -/
theorem skip_clamps_witness :
    (readyAt200.player.howl = some engineAt200 ∧ (0:ℚ) < 30 ∧
     getCurrentPosition (skipBackward 30 readyAt200).2 = max 0 (engineAt200.pos - 30) ∧
     getCurrentPosition (skipForward 30 readyAt200).2 =
       min engineAt200.duration (engineAt200.pos + 30)) ∧
    (readyDur0.player.howl = some (newHowl 1) ∧
     skipForward 30 readyDur0 = (none, readyDur0)) := by
  constructor
  · refine ⟨by decide, by norm_num, ?_, ?_⟩
    · exact (skip_clamps readyAt200 engineAt200 30 (by decide) (by norm_num)).1.2
    · exact ((skip_clamps readyAt200 engineAt200 30 (by decide) (by norm_num)).2.1
        (by decide)).2
  · exact ⟨by decide,
      (skip_clamps readyDur0 (newHowl 1) 30 (by decide) (by norm_num)).2.2 (by decide)⟩

/-- C8 (counterexample): overlapping `loadBook` calls refute the claimed
invariant.  After the race of `raceMidB`, playback of the second book starts
(autosave timer active), and then the suspended first call resumes and runs
its install segment: the resulting reachable state has an active autosave
timer while the installed engine is not playing. -/
theorem overlapping_loads_break_autosave_inv :
    raceAutosaveState.player.autoSaveInterval.isSome = true ∧
    isPlayingOf raceAutosaveState = false ∧
    ¬ AutosaveInv raceAutosaveState := by
  refine ⟨by decide, by decide, ?_⟩
  unfold AutosaveInv
  decide

/-- C8 (amended): in every state reachable when the prologue of each
`loadBook` (its teardown through its engine installation) runs with no other
Player call interleaved — transport calls, destroys, track-end events,
abandoned teardowns and arbitrarily timed (even stale) settles may interleave
everywhere else — the autosave timer is active if and only if the session is
in the Playing sub-state: the timer starts exactly with playback and stops on
pause, on track end, on destroy, and at the start of every `loadBook`. -/
theorem autosave_iff_playing_reachable (w : World) (hw : Reach w) :
    AutosaveInv w := by
  induction hw with
  | init st vol => simp [AutosaveInv, isPlayingOf, initWorld]
  | step hr hs ih => exact inv_step hs ih

/-- C8 (witness): the Ready session is reachable (fresh Player, one complete
uninterrupted load) and satisfies the invariant. -/
theorem autosave_iff_playing_witness :
    Reach readyW ∧ AutosaveInv readyW :=
  ⟨reach_readyW, autosave_iff_playing_reachable readyW reach_readyW⟩

/-- C9: `notifyStateChange` delivers the full recomputed snapshot to every
registered subscriber in order: the result list pairs one outcome with each
callback, each callback is invoked on `getState`, a throwing callback has
its exception caught (recorded, logged) without preventing delivery to the
rest, and the function is total, so no exception propagates out of the
notifying call. -/
theorem notify_delivers_to_all (cbs : List Callback) (w : World) (i : ℕ) :
    (notifyStateChange cbs w).length = cbs.length ∧
    (notifyStateChange cbs w).get? i =
      (cbs.get? i).map (fun cb => invokeGuarded cb (getState w)) := by
  constructor
  · unfold notifyStateChange
    induction cbs with
    | nil => rfl
    | cons cb rest ih => simpa [deliverAll] using ih
  · unfold notifyStateChange
    induction cbs generalizing i with
    | nil => simp [deliverAll]
    | cons cb rest ih =>
      cases i with
      | zero => simp [deliverAll]
      | succ n => simpa [deliverAll] using ih n

/-- C10: with no book loaded (no engine installed and no current book id),
`getState()` is total and returns the snapshot with `isPlaying = false`,
position and duration 0, speed 1.0 and a null book id, while its `volume`
field reports the global Howler master volume; that master volume survives
`destroy()` and session replacement unchanged, so it retains the last value
set through `setVolume`. -/
theorem unloaded_getState_and_master_volume (w w2 : World) (e : Engine) (v : ℚ)
    (b : Book) (o : LoadOutcome)
    (h1 : w.player.howl = none) (h2 : w.player.currentBookId = none)
    (h3 : w2.player.howl = some e) (h4 : 0 ≤ v) (h5 : v ≤ 1) :
    getState w = { isPlaying := false, currentPosition := 0, duration := 0,
                   volume := w.howlerVolume, speed := 1, currentBookId := none } ∧
    (destroy w).howlerVolume = w.howlerVolume ∧
    (loadBookRun b o w).2.howlerVolume = w.howlerVolume ∧
    (setVolume v w2).1 = none ∧
    (destroy (setVolume v w2).2).howlerVolume = v ∧
    (loadBookRun b o (setVolume v w2).2).2.howlerVolume = v := by
  have hcond : ¬ (v < 0 ∨ v > 1) := by push_neg; exact ⟨h4, h5⟩
  have hv : setVolume v w2 = (none, { w2 with howlerVolume := v }) := by
    simp only [setVolume, h3]
    rw [if_neg hcond]
  refine ⟨?_, destroy_howlerVolume w, loadBookRun_howlerVolume b o w, ?_, ?_, ?_⟩
  · simp [getState, getCurrentPosition, getDuration, h1, h2]
  · rw [hv]
  · rw [hv, destroy_howlerVolume]
  · rw [hv, loadBookRun_howlerVolume]

/-- C10 (witness): the theorem applied to the fresh world and to the Ready
session with volume 7/10, then destroyed and replaced by a load of the other
book. -/
theorem unloaded_getState_witness :
    w0.player.howl = none ∧ w0.player.currentBookId = none ∧
    readyW.player.howl = some engineReady ∧
    getState w0 = { isPlaying := false, currentPosition := 0, duration := 0,
                    volume := 1, speed := 1, currentBookId := none } ∧
    (setVolume (mkRat 7 10) readyW).1 = none ∧
    (destroy (setVolume (mkRat 7 10) readyW).2).howlerVolume = mkRat 7 10 ∧
    (loadBookRun bookB (.success 100) (setVolume (mkRat 7 10) readyW).2).2.howlerVolume
      = mkRat 7 10 := by
  have h := unloaded_getState_and_master_volume w0 readyW engineReady (mkRat 7 10)
    bookB (.success 100) (by decide) (by decide) (by decide)
    (by decide) (by decide)
  exact ⟨by decide, by decide, by decide, h.1, h.2.2.2.1, h.2.2.2.2.1, h.2.2.2.2.2⟩

end LocalAudioBooks
